import Mathlib

/-!
Verification of the libSQL HTTP protocol server (src/unnamed/part_005,
class LibSQLHttpServer) against its natural-language specification.

The TypeScript source is shallowly embedded: JS objects holding protocol
values become inductive types, the mutable `streams` Map and the per-stream
`storedSql` Map become association lists with JS `Map` get/set/delete
semantics, and the backing SQLite executor (`this.sql.exec`) becomes an
abstract `Backend` record threaded through the handlers together with a
call log, so that "the backend was (not) invoked" is observable.

JS numbers are modelled as `JNum`: `jint n` is a number for which
`Number.isInteger` is true (the only case the codec inspects), `jreal q`
is a non-integer double, carried opaquely as an exact rational because the
codec only ever passes such values through unchanged.
-/

namespace LibSQL

/-- A JS number as the codec observes it: `Number.isInteger` either holds
(`jint`) or does not (`jreal`); the payload of a non-integer double is
never computed with, only passed through. -/
inductive JNum where
  | jint (n : Int)
  | jreal (q : Rat)
  deriving DecidableEq, Repr

/-- A native value as produced by the backend cursor or handed to
`exec`: `null`/`undefined`, a JS number, a JS string, or a `Uint8Array`
(a list of bytes). -/
inductive Native where
  | nnull
  | nnum (n : JNum)
  | nstr (s : String)
  | nbytes (bs : List Nat)
  deriving DecidableEq, Repr

/-- A JSON wire value as the codec reads and writes it: the union of the
source's `SqlValue` (null, number, string, `\x7bbase64\x7d` object) and
`HranaValue` (`\x7btype, value?\x7d` object). -/
inductive Wire where
  | wnull
  | wnum (n : JNum)
  | wstr (s : String)
  | wblob (base64 : String)
  /-- a `\x7btype: ty\x7d` object whose `value` field is absent -/
  | whrana0 (ty : String)
  /-- a `\x7btype: ty, value: v\x7d` object (`v = wnull` models an explicit
  `null` payload, which `value.value ?? null` also maps to null) -/
  | whrana (ty : String) (value : Wire)
  deriving DecidableEq, Repr

/-- The standard base64 alphabet used by `btoa`. -/
def base64Chars : List Char :=
  "ABCDEFGHIJKLMNOPQRSTUVWXYZabcdefghijklmnopqrstuvwxyz0123456789+/".toList

/-- The base64 digit for a 6-bit group. -/
def b64c (n : Nat) : Char := base64Chars.getD n 'A'

/-- JS `btoa(String.fromCharCode(...bytes))`: RFC 4648 base64 of a byte
list, with `=` padding. -/
def btoa : List Nat → String
  | [] => ""
  | [a] => String.mk [b64c (a / 4), b64c ((a % 4) * 16), '=', '=']
  | [a, b] => String.mk [b64c (a / 4), b64c ((a % 4) * 16 + b / 16), b64c ((b % 16) * 4), '=']
  | a :: b :: c :: rest =>
      String.mk [b64c (a / 4), b64c ((a % 4) * 16 + b / 16),
                 b64c ((b % 16) * 4 + c / 64), b64c (c % 64)] ++ btoa rest

/-- `parseHranaValue`: decode a wire value (`SqlValue | HranaValue`) to a
`SqlValue`.  Scalars pass through; an object with a truthy `type` field
yields `null` for type `"null"` and otherwise `value.value ?? null`; any
other object (in particular a `\x7bbase64\x7d` blob) is returned as-is. -/
def parseHranaValue : Wire → Wire
  | .wnull => .wnull
  | .wnum n => .wnum n
  | .wstr s => .wstr s
  | .wblob b => .wblob b
  | .whrana0 ty =>
      if ty = "" then .whrana0 ty
      else if ty = "null" then .wnull
      else .wnull
  | .whrana ty v =>
      if ty = "" then .whrana ty v
      else if ty = "null" then .wnull
      else v

/-- `convertToSqlValue`: encode a native value in the v1 response format
(raw JSON scalars, blobs as a `\x7bbase64\x7d` object). -/
def convertToSqlValue : Native → Wire
  | .nnull => .wnull
  | .nstr s => .wstr s
  | .nnum n => .wnum n
  | .nbytes bs => .wblob (btoa bs)

/-- `convertToHranaValue`: encode a native value in the v2/v3 response
format (`\x7btype, value\x7d` objects); integer-valued numbers are emitted as
decimal strings tagged `integer`. -/
def convertToHranaValue : Native → Wire
  | .nnull => .whrana0 "null"
  | .nstr s => .whrana "text" (.wstr s)
  | .nnum (.jint n) => .whrana "integer" (.wstr (toString n))
  | .nnum (.jreal q) => .whrana "float" (.wnum (.jreal q))
  | .nbytes bs => .whrana "blob" (.wstr (btoa bs))

/-- The value domain of the spec: null, 64-bit integer, IEEE-754 double,
UTF-8 text, byte blob. -/
inductive Value where
  | vnull
  | vint (n : Int)
  | vfloat (q : Rat)
  | vtext (s : String)
  | vblob (bs : List Nat)
  deriving DecidableEq, Repr

/-- A spec value as a backend-native value. -/
def toNative : Value → Native
  | .vnull => .nnull
  | .vint n => .nnum (.jint n)
  | .vfloat q => .nnum (.jreal q)
  | .vtext s => .nstr s
  | .vblob bs => .nbytes bs

/-- A spec value in its `SqlValue` wire form (the decoder's codomain):
blobs are the `\x7bbase64\x7d` object. -/
def valueToSql : Value → Wire
  | .vnull => .wnull
  | .vint n => .wnum (.jint n)
  | .vfloat q => .wnum (.jreal q)
  | .vtext s => .wstr s
  | .vblob bs => .wblob (btoa bs)

end LibSQL

namespace LibSQL

/-- Claim C1 counterexample: encoding the 64-bit integer 42 with the
v2/v3 encoder `convertToHranaValue` and decoding with `parseHranaValue`
yields the text "42", not the integer 42 — the round-trip claim is false
for integers under v2/v3 (and likewise for blobs, which decode to their
base64 text). -/
theorem value_roundtrip_cex :
    ¬ (parseHranaValue (convertToHranaValue (toNative (Value.vint 42))) =
        valueToSql (Value.vint 42)) ∧
    parseHranaValue (convertToHranaValue (toNative (Value.vint 42))) = Wire.wstr "42" ∧
    parseHranaValue (convertToHranaValue (toNative (Value.vblob [0, 255]))) =
      Wire.wstr (btoa [0, 255]) := by
  refine ⟨by decide, rfl, rfl⟩

/-- Claim C1 (amended): the v1 codec round-trips every value of the domain
(null, integer, float, text, blob — a blob in its `\x7bbase64\x7d` `SqlValue`
form); the v2/v3 codec round-trips null, float and text, while an integer
decodes to its decimal-string text and a blob decodes to its base64 text. -/
theorem value_roundtrip_amended (V : Value) :
    parseHranaValue (convertToSqlValue (toNative V)) = valueToSql V ∧
    parseHranaValue (convertToHranaValue (toNative V)) =
      (match V with
       | .vint n => .wstr (toString n)
       | .vblob bs => .wstr (btoa bs)
       | v => valueToSql v) := by
  cases V <;> exact ⟨rfl, rfl⟩

/-! JS `Map` as an association list: `set` replaces the entry in place if
the key is present and appends otherwise, `get` finds the first entry,
`delete` removes the entry. -/

/-- JS `Map.prototype.get`. -/
def msGet {κ α : Type} [DecidableEq κ] (k : κ) : List (κ × α) → Option α
  | [] => none
  | p :: rest => if p.1 = k then some p.2 else msGet k rest

/-- JS `Map.prototype.set`. -/
def msSet {κ α : Type} [DecidableEq κ] (k : κ) (v : α) : List (κ × α) → List (κ × α)
  | [] => [(k, v)]
  | p :: rest => if p.1 = k then (k, v) :: rest else p :: msSet k v rest

/-- JS `Map.prototype.delete`. -/
def msDelete {κ α : Type} [DecidableEq κ] (k : κ) : List (κ × α) → List (κ × α)
  | [] => []
  | p :: rest => if p.1 = k then rest else p :: msDelete k rest

theorem msGet_msSet_self {κ α : Type} [DecidableEq κ] (k : κ) (v : α)
    (m : List (κ × α)) : msGet k (msSet k v m) = some v := by
  induction m with
  | nil => simp [msGet, msSet]
  | cons p rest ih =>
      by_cases h : p.1 = k <;> simp [msGet, msSet, h, ih]

theorem msGet_msSet_ne {κ α : Type} [DecidableEq κ] (k k' : κ) (v : α)
    (m : List (κ × α)) (h : k' ≠ k) : msGet k' (msSet k v m) = msGet k' m := by
  induction m with
  | nil => simp [msGet, msSet, Ne.symm h]
  | cons p rest ih =>
      by_cases hp : p.1 = k
      · simp [msGet, msSet, hp, Ne.symm h]
      · simp [msGet, msSet, hp, ih]

theorem msGet_eq_none_of_not_mem {κ α : Type} [DecidableEq κ] (k : κ)
    (m : List (κ × α)) (h : k ∉ m.map Prod.fst) : msGet k m = none := by
  induction m with
  | nil => rfl
  | cons p rest ih =>
      simp only [List.map_cons, List.mem_cons, not_or] at h
      simp [msGet, Ne.symm h.1, ih h.2]

theorem msGet_msDelete_self {κ α : Type} [DecidableEq κ] (k : κ)
    (m : List (κ × α)) (hnd : (m.map Prod.fst).Nodup) : msGet k (msDelete k m) = none := by
  induction m with
  | nil => rfl
  | cons p rest ih =>
      simp only [List.map_cons, List.nodup_cons] at hnd
      by_cases hp : p.1 = k
      · simp only [msDelete, if_pos hp]
        exact msGet_eq_none_of_not_mem _ _ (hp ▸ hnd.1)
      · simp [msDelete, msGet, hp, ih hnd.2]

theorem msGet_msDelete_ne {κ α : Type} [DecidableEq κ] (k k' : κ)
    (m : List (κ × α)) (h : k' ≠ k) : msGet k' (msDelete k m) = msGet k' m := by
  induction m with
  | nil => simp [msDelete]
  | cons p rest ih =>
      by_cases hp : p.1 = k
      · simp [msDelete, msGet, hp, Ne.symm h]
      · simp [msDelete, msGet, hp, ih]

/-- One row of a backend cursor: a JS object, i.e. an ordered mapping from
column name to native value (`Object.keys` order is insertion order). -/
abbrev Row : Type := List (String × Native)

/-- JS property access `row[col]`: an absent key reads as `undefined`,
which every consumer here treats like `null`. -/
def rowGet (row : Row) (c : String) : Native := ((msGet c row).getD .nnull)

/-- The result of `this.sql.exec(...)` with its in-memory `toArray()`. -/
structure Cursor where
  rows : List Row
  deriving DecidableEq, Repr

/-- The backing SQLite executor of the Durable Object, abstracted: `exec`
consumes the database state and either yields a cursor or throws, and
`now` reads the clock (`performance.now()`), which advances only as the
database state does. -/
structure Backend (σ : Type) where
  exec : σ → String → List Wire → Except String Cursor × σ
  now : σ → Nat

/-- The executor state threaded through the handlers, instrumented with
the list of `exec` invocations so that theorems can observe whether and
with which arguments the backend was called. -/
structure St (σ : Type) where
  db : σ
  calls : List (String × List Wire)

/-- Invoke `this.sql.exec(sql, ...params)`, recording the call. -/
def callExec {σ : Type} (B : Backend σ) (s : St σ) (sql : String)
    (ps : List Wire) : Except String Cursor × St σ :=
  let r := B.exec s.db sql ps
  (r.1, ⟨r.2, s.calls ++ [(sql, ps)]⟩)

/-- JS whitespace, restricted to the ASCII characters that occur here. -/
def isJsWS (c : Char) : Bool := c = ' ' || c = '\t' || c = '\n' || c = '\r'

/-- JS `String.prototype.trim` (over the string's character list, so that
proofs can evaluate it). -/
def jsTrim (s : String) : String :=
  String.mk (((s.data.dropWhile isJsWS).reverse.dropWhile isJsWS).reverse)

/-- JS `String.prototype.toUpperCase` (ASCII). -/
def toUpperCase (s : String) : String := String.mk (s.data.map Char.toUpper)

/-- JS `String.prototype.startsWith`. -/
def startsWithS (s pre : String) : Bool := List.isPrefixOf pre.data s.data

/-- `isWriteQuery`: prefix classification of a SQL string as a write. -/
def isWriteQuery (sql : String) : Bool :=
  let u := toUpperCase (jsTrim sql)
  startsWithS u "INSERT" || startsWithS u "UPDATE" || startsWithS u "DELETE" ||
  startsWithS u "CREATE" || startsWithS u "DROP" || startsWithS u "ALTER"

/-- `isReadonlyQuery`. -/
def isReadonlyQuery (sql : String) : Bool := !isWriteQuery sql

/-- The transaction-control test of `executeStatement` (the condition of
its interception branch, verbatim). -/
def isTxnControl (sql : String) : Bool :=
  let t := toUpperCase (jsTrim sql)
  t = "BEGIN" || t = "COMMIT" || t = "ROLLBACK" ||
  startsWithS t "BEGIN DEFERRED" || startsWithS t "BEGIN IMMEDIATE" ||
  startsWithS t "BEGIN EXCLUSIVE" ||
  t = "SAVEPOINT" || startsWithS t "SAVEPOINT " || startsWithS t "RELEASE "

/-- `namedArgsToArray`: if the SQL contains no `?` placeholder return `[]`,
otherwise return the named values in iteration order. -/
def namedArgsToArray (sql : String) (namedArgs : List (String × Wire)) : List Wire :=
  if sql.toList.contains '?' then namedArgs.map Prod.snd else []

/-- `StmtResult` of the v2/v3 protocol.  `cols` keeps only the names (the
source pairs each name with a constantly-null `decltype`); the three
optional fields are the v3 metadata. -/
structure StmtResult where
  cols : List String
  rows : List (List Wire)
  affected_row_count : Nat
  last_insert_rowid : Option String
  rows_read : Option Nat
  rows_written : Option Nat
  query_duration_ms : Option Nat
  deriving DecidableEq, Repr

/-- JS `String(x)` for the values `last_insert_rowid()` can produce
(an integer id, or `null` when the probe row or column is missing);
the remaining cases are modelled by their JS stringification shape. -/
def jsToString : Native → String
  | .nnull => "null"
  | .nstr s => s
  | .nnum (.jint n) => toString n
  | .nnum (.jreal q) => toString q
  | .nbytes bs => String.intercalate "," (bs.map toString)

/-- JS truthiness of a native value (`idResult?.id || null`). -/
def nTruthy : Native → Bool
  | .nnull => false
  | .nstr s => s ≠ ""
  | .nnum (.jint n) => n ≠ 0
  | .nnum (.jreal q) => q ≠ 0
  | .nbytes _ => true

/-- The `last_insert_rowid` probe of `executeStatement`: run only for SQL
whose trimmed upper-casing starts with INSERT; errors are swallowed, and
the JS `String(idResult?.id || null)` quirk maps a missing row, missing
column or falsy id to the string "null". -/
def rowidProbe {σ : Type} (B : Backend σ) (s : St σ) : Option String × St σ :=
  match callExec B s "SELECT last_insert_rowid() as id" [] with
  | (.ok c2, s2) =>
      let idv : Native := (c2.rows.head?.map (fun row => rowGet row "id")).getD .nnull
      (some (jsToString (if nTruthy idv then idv else .nnull)), s2)
  | (.error _, s2) => (none, s2)

/-- `executeStatement` (v2/v3): intercept transaction-control statements
with an empty result and no backend call; otherwise bind positional args
when given (JS: an array is always truthy, so `args || ...` never falls
back to `namedArgsToArray` when an array is passed), execute, derive the
columns from the first row, convert rows to Hrana values, probe the last
insert rowid for INSERTs, and fill v3 metadata when `ver = 3`. -/
def executeStatement {σ : Type} (B : Backend σ) (ver : Nat) (sql : String)
    (args : Option (List Wire)) (namedArgs : Option (List (String × Wire)))
    (s : St σ) : Except String StmtResult × St σ :=
  let start := B.now s.db
  if isTxnControl sql then
    (.ok { cols := [], rows := [], affected_row_count := 0, last_insert_rowid := none,
           rows_read := if ver = 3 then some 0 else none,
           rows_written := if ver = 3 then some 0 else none,
           query_duration_ms := if ver = 3 then some (B.now s.db - start) else none }, s)
  else
    let params := match args with
      | some a => a
      | none => namedArgsToArray sql (namedArgs.getD [])
    match callExec B s sql params with
    | (.error m, s1) => (.error m, s1)
    | (.ok cur, s1) =>
        let cols : List String := match cur.rows with
          | [] => []
          | r :: _ => r.map Prod.fst
        let rowArrays := cur.rows.map (fun row =>
          cols.map (fun c => convertToHranaValue (rowGet row c)))
        let pr : Option String × St σ :=
          if startsWithS (toUpperCase (jsTrim sql)) "INSERT" then rowidProbe B s1 else (none, s1)
        let w := isWriteQuery sql
        (.ok { cols := cols, rows := rowArrays,
               affected_row_count := if w then 1 else 0,
               last_insert_rowid := pr.1,
               rows_read := if ver = 3 then some cur.rows.length else none,
               rows_written := if ver = 3 then (if w then some 1 else some 0) else none,
               query_duration_ms := if ver = 3 then some (B.now pr.2.db - start) else none },
         pr.2)

/-- JS string truthiness: `undefined`, `null` and `""` are falsy. -/
def truthyStr : Option String → Option String
  | some s => if s = "" then none else some s
  | none => none

/-- `named_args` as received on the wire: a v2 record, a bare
`HranaValue[]`, or a v3 list of `\x7bname, value\x7d` pairs (the source fans
out on `Array.isArray` and on `'name' in namedArgs[0]`). -/
inductive NamedArgsIn where
  | record (m : List (String × Wire))
  | arr (l : List Wire)
  | namedList (l : List (String × Wire))
  deriving DecidableEq, Repr

/-- `parseNamedArgs`: normalize `named_args` to a name-to-value record;
a record passes through unparsed, a `HranaValue[]` is keyed by index, a
`NamedArg[]` is parsed entry-wise. -/
def parseNamedArgs : Option NamedArgsIn → Option (List (String × Wire))
  | none => none
  | some (.record m) => some m
  | some (.arr l) => some (l.enum.map (fun p => (toString p.1, parseHranaValue p.2)))
  | some (.namedList l) => some (l.map (fun p => (p.1, parseHranaValue p.2)))

/-- `parseArgs`: absent args become `[]`; each element is decoded. -/
def parseArgs (args : Option (List Wire)) : List Wire :=
  (args.getD []).map parseHranaValue

/-- `Stmt` of the protocol (the unused `want_rows` flag is omitted). -/
structure Stmt where
  sql : Option String
  sql_id : Option Nat
  args : Option (List Wire)
  named_args : Option NamedArgsIn
  deriving DecidableEq, Repr

/-- Per-stream state: the `storedSql` map from numeric id to SQL text. -/
structure StreamState where
  storedSql : List (Nat × String)
  deriving DecidableEq, Repr

/-- `resolveSql`: a truthy `stmt.sql` wins; otherwise a present `sql_id`
is looked up in the stream's `storedSql` (a missing or empty entry
throws); otherwise neither was provided. -/
def resolveSql (stmt : Stmt) (st : StreamState) : Except String String :=
  match truthyStr stmt.sql with
  | some s => .ok s
  | none =>
      match stmt.sql_id with
      | some id =>
          match truthyStr (msGet id st.storedSql) with
          | some q => .ok q
          | none => .error ("SQL ID " ++ toString id ++ " not found")
      | none => .error "Neither sql nor sql_id provided"

/-- `handleExecute`: resolve the SQL, decode the arguments, execute.
Note that the positional argument list is always passed as an array
(possibly empty) to `executeStatement`. -/
def handleExecute {σ : Type} (B : Backend σ) (ver : Nat) (stmt : Stmt)
    (st : StreamState) (s : St σ) : Except String StmtResult × St σ :=
  match resolveSql stmt st with
  | .error m => (.error m, s)
  | .ok sql =>
      executeStatement B ver sql (some (parseArgs stmt.args))
        (parseNamedArgs stmt.named_args) s

/-- A batch condition as it appears on the wire: a `type` tag, an optional
`step` index, and an optional nested condition. -/
inductive BatchCond where
  | mk (ty : String) (step : Option Nat)
  | mkc (ty : String) (step : Option Nat) (cond : BatchCond)
  deriving DecidableEq, Repr

/-- The step-indexed part of `evaluateCondition`: with no `step` the
condition holds; `ok` tests `errors[step] === null` (false when the index
is out of range, since `undefined !== null`), `error` tests
`errors[step] !== null`; other tags hold. -/
def evalStepCond (ty : String) (step : Option Nat) (errors : List (Option String)) : Bool :=
  match step with
  | none => true
  | some i =>
      if ty = "ok" then decide (errors.get? i = some none)
      else if ty = "error" then decide (¬ (errors.get? i = some none))
      else true

/-- `evaluateCondition`: a `not` with a present nested condition negates
it; everything else defers to the step test.  The `results` array is
accepted but never read, as in the source. -/
def evaluateCondition : BatchCond → List (Option StmtResult) → List (Option String) → Bool
  | .mkc ty step c, rs, es =>
      if ty = "not" then !(evaluateCondition c rs es) else evalStepCond ty step es
  | .mk ty step, _, es => evalStepCond ty step es

/-- One step of the batch: a statement guarded by an optional condition. -/
structure BatchStep where
  condition : Option BatchCond
  stmt : Option Stmt
  deriving DecidableEq, Repr

/-- The try-block of one batch step: a missing statement, a failing
`resolveSql` or a failing execution records `error.message ||
'Execution failed'`; success records the statement result. -/
def runBatchTry {σ : Type} (B : Backend σ) (ver : Nat) (st : StreamState)
    (stmtO : Option Stmt) (s : St σ) : (Option StmtResult × Option String) × St σ :=
  match stmtO with
  | none => ((none, some "Step statement is undefined"), s)
  | some stmt =>
      match resolveSql stmt st with
      | .error m => ((none, some (if m = "" then "Execution failed" else m)), s)
      | .ok sql =>
          match executeStatement B ver sql (some (parseArgs stmt.args))
              (parseNamedArgs stmt.named_args) s with
          | (.ok r, s1) => ((some r, none), s1)
          | (.error m, s1) => ((none, some (if m = "" then "Execution failed" else m)), s1)

/-- The body of `handleBatch`'s loop for one step: a present condition
that evaluates false against the accumulated results/errors skips the
step (both entries null, no execution); otherwise the step runs. -/
def runBatchStep {σ : Type} (B : Backend σ) (ver : Nat) (st : StreamState)
    (step : BatchStep) (accR : List (Option StmtResult)) (accE : List (Option String))
    (s : St σ) : (Option StmtResult × Option String) × St σ :=
  match step.condition with
  | some c =>
      if evaluateCondition c accR accE then runBatchTry B ver st step.stmt s
      else ((none, none), s)
  | none => runBatchTry B ver st step.stmt s

/-- `handleBatch`'s loop over the steps, carrying the accumulated
`step_results` and `step_errors`. -/
def runBatchSteps {σ : Type} (B : Backend σ) (ver : Nat) (st : StreamState) :
    List BatchStep → List (Option StmtResult) → List (Option String) → St σ →
    (List (Option StmtResult) × List (Option String)) × St σ
  | [], accR, accE, s => ((accR, accE), s)
  | step :: rest, accR, accE, s =>
      let o := runBatchStep B ver st step accR accE s
      runBatchSteps B ver st rest (accR ++ [o.1.1]) (accE ++ [o.1.2]) o.2

/-- `handleBatch`: evaluate the steps in order starting from empty
accumulators. -/
def handleBatch {σ : Type} (B : Backend σ) (ver : Nat) (steps : List BatchStep)
    (st : StreamState) (s : St σ) :
    (List (Option StmtResult) × List (Option String)) × St σ :=
  runBatchSteps B ver st steps [] [] s

/-- The stream requests of the v2/v3 pipeline (`unknown` models a request
whose `type` matches no case and hits the `default` throw). -/
inductive StreamRequest where
  | close
  | execute (stmt : Stmt)
  | batch (steps : List BatchStep)
  | sequence (sql : Option String) (sql_id : Option Nat)
  | describe (sql : Option String) (sql_id : Option Nat)
  | store_sql (sql_id : Nat) (sql : String)
  | close_sql (sql_id : Nat)
  | get_autocommit
  | unknown (ty : String)
  deriving DecidableEq, Repr

/-- The stream responses (describe's `params` and `cols` are constantly
empty in the source and omitted here). -/
inductive StreamResponse where
  | close
  | execute (result : StmtResult)
  | batch (step_results : List (Option StmtResult)) (step_errors : List (Option String))
  | sequence
  | describe (is_explain : Bool) (is_readonly : Bool)
  | store_sql
  | close_sql
  | get_autocommit (is_autocommit : Bool)
  deriving DecidableEq, Repr

/-- SQL resolution shared by `sequence` and `describe`: a present
`sql_id` reads the stream cache, otherwise the inline `sql` is used. -/
def seqSql (st : StreamState) (sql : Option String) (sql_id : Option Nat) : Option String :=
  match sql_id with
  | some id => msGet id st.storedSql
  | none => sql

/-- `handleStreamRequest`: dispatch one request against one stream,
returning the response or the thrown message, the stream state, and the
executor state.  `close` is a no-op that only answers `\x7btype:'close'\x7d`. -/
def handleStreamRequest {σ : Type} (B : Backend σ) (ver : Nat) (req : StreamRequest)
    (st : StreamState) (s : St σ) : Except String StreamResponse × StreamState × St σ :=
  match req with
  | .close => (.ok .close, st, s)
  | .execute stmt =>
      match handleExecute B ver stmt st s with
      | (.ok r, s1) => (.ok (.execute r), st, s1)
      | (.error m, s1) => (.error m, st, s1)
  | .batch steps =>
      let o := handleBatch B ver steps st s
      (.ok (.batch o.1.1 o.1.2), st, o.2)
  | .sequence sql sqlId =>
      match truthyStr (seqSql st sql sqlId) with
      | none => (.error "SQL not provided and sql_id not found", st, s)
      | some q =>
          match callExec B s q [] with
          | (.ok _, s1) => (.ok .sequence, st, s1)
          | (.error m, s1) => (.error m, st, s1)
  | .describe sql sqlId =>
      match truthyStr (seqSql st sql sqlId) with
      | none => (.error "SQL not provided and sql_id not found", st, s)
      | some q =>
          (.ok (.describe (startsWithS (toUpperCase (jsTrim q)) "EXPLAIN") (isReadonlyQuery q)), st, s)
  | .store_sql id q => (.ok .store_sql, ⟨msSet id q st.storedSql⟩, s)
  | .close_sql id => (.ok .close_sql, ⟨msDelete id st.storedSql⟩, s)
  | .get_autocommit => (.ok (.get_autocommit true), st, s)
  | .unknown ty => (.error ("Unknown request type: " ++ ty), st, s)

/-- One slot of the pipeline `results` array:
`\x7btype:'ok', response\x7d` or `\x7btype:'error', error:\x7bmessage\x7d\x7d`. -/
inductive StreamRes where
  | ok (response : StreamResponse)
  | err (message : String)
  deriving DecidableEq, Repr

/-- The catch-wrapper of the pipeline loop: a thrown message lands in the
result slot as `error.message || 'Request failed'`. -/
def toStreamRes : Except String StreamResponse → StreamRes
  | .ok r => .ok r
  | .error m => .err (if m = "" then "Request failed" else m)

/-- The pipeline loop over the requests: every request is processed from
the state its predecessors left behind, and a failure is trapped into its
own slot without stopping the loop. -/
def runRequests {σ : Type} (B : Backend σ) (ver : Nat) :
    List StreamRequest → StreamState → St σ → List StreamRes × StreamState × St σ
  | [], st, s => ([], st, s)
  | r :: rs, st, s =>
      let o := handleStreamRequest B ver r st s
      let rest := runRequests B ver rs o.2.1 o.2.2
      (toStreamRes o.1 :: rest.1, rest.2)

/-- The HTTP outcome of `handlePipeline` after body parsing: a 400 JSON
error, or a 200 JSON response with the new baton (`base_url` is always
null and omitted). -/
inductive PipelineOut where
  | badRequest (error : String)
  | ok (baton : String) (results : List StreamRes)
  deriving DecidableEq, Repr

/-- `handlePipeline`: `nb` is the baton freshly drawn from the RNG by
`generateBaton()`.  A missing `requests` array is a 400; a null baton
mints a new stream; a presented baton must be registered — it is deleted
and the stream is re-bound under `nb` — else a 400 leaves the registry
untouched.  The requests then run in order and the evolved stream is the
one the registry holds under `nb` (the idle-timer bookkeeping is not
modelled). -/
def handlePipeline {σ : Type} (B : Backend σ) (ver : Nat) (nb : String)
    (baton : Option String) (requests : Option (List StreamRequest))
    (streams : List (String × StreamState)) (s : St σ) :
    PipelineOut × List (String × StreamState) × St σ :=
  match requests with
  | none => (.badRequest "Invalid request: requests array required", streams, s)
  | some reqs =>
      match baton with
      | none =>
          let st0 : StreamState := ⟨[]⟩
          let streams1 := msSet nb st0 streams
          let run := runRequests B ver reqs st0 s
          (.ok nb run.1, msSet nb run.2.1 streams1, run.2.2)
      | some b =>
          match msGet b streams with
          | none => (.badRequest "Invalid or expired baton", streams, s)
          | some st0 =>
              let streams1 := msSet nb st0 (msDelete b streams)
              let run := runRequests B ver reqs st0 s
              (.ok nb run.1, msSet nb run.2.1 streams1, run.2.2)

/-- The handlers `handleRequest` can dispatch to (`fallback404` is the
final `Not found` JSON response, `protobufNotFound` the plain-text 404 of
the unimplemented protobuf probe). -/
inductive Handler where
  | protobufNotFound
  | probeV3
  | probeV2
  | pipelineV3
  | pipelineV2
  | v1batch
  | health
  | version
  | fallback404
  deriving DecidableEq, Repr

/-- The dispatch chain of `handleRequest`: method and `url.pathname` are
compared for exact equality, in source order. -/
def route (method path : String) : Handler :=
  if method = "GET" ∧ path = "/v3-protobuf" then .protobufNotFound
  else if method = "GET" ∧ path = "/v3" then .probeV3
  else if method = "GET" ∧ path = "/v2" then .probeV2
  else if method = "POST" ∧ path = "/v3/pipeline" then .pipelineV3
  else if method = "POST" ∧ path = "/v2/pipeline" then .pipelineV2
  else if method = "POST" ∧ (path = "/" ∨ path = "/v1") then .v1batch
  else if method = "GET" ∧ path = "/health" then .health
  else if method = "GET" ∧ path = "/version" then .version
  else .fallback404

/-- The body-independent response (status, body) a handler produces; the
pipeline and v1 handlers depend on the request body and map to `none`. -/
def simpleResponse : Handler → Option (Nat × String)
  | .protobufNotFound => some (404, "Not Found")
  | .probeV3 => some (200, "OK")
  | .probeV2 => some (200, "OK")
  | .health => some (200, "OK")
  | .version => some (200, "\x7b\"version\":\"libsql-do-http-0.1.0\"\x7d")
  | .fallback404 => some (404, "\x7b\"error\":\"Not found\"\x7d")
  | _ => none

/-- A v1 query: a bare SQL string or `\x7bq, params\x7d`. -/
inductive ParamsIn where
  | arr (l : List Wire)
  | record (m : List (String × Wire))
  deriving DecidableEq, Repr

/-- A v1 statement. -/
inductive Query where
  | qstr (q : String)
  | qparam (q : String) (params : Option ParamsIn)
  deriving DecidableEq, Repr

/-- `normalizeParams`: missing params become `[]`, an array passes
through, a named record contributes its values in iteration order. -/
def normalizeParams : Option ParamsIn → List Wire
  | none => []
  | some (.arr l) => l
  | some (.record m) => m.map Prod.snd

/-- The per-query part of the v1 response. -/
structure V1Res where
  columns : List String
  rows : List (List Wire)
  rows_read : Nat
  rows_written : Nat
  deriving DecidableEq, Repr

/-- `executeQuery` (v1): execute, derive the column list from the first
returned row (empty when no rows), convert every row to the v1 value
encoding in column order. -/
def executeQuery {σ : Type} (B : Backend σ) (q : Query) (s : St σ) :
    Except String V1Res × St σ :=
  let p : String × List Wire := match q with
    | .qstr t => (t, [])
    | .qparam t ps => (t, normalizeParams ps)
  match callExec B s p.1 p.2 with
  | (.error m, s1) => (.error m, s1)
  | (.ok cur, s1) =>
      let columns : List String := match cur.rows with
        | [] => []
        | r :: _ => r.map Prod.fst
      (.ok { columns := columns,
             rows := cur.rows.map (fun row =>
               columns.map (fun c => convertToSqlValue (rowGet row c))),
             rows_read := cur.rows.length,
             rows_written := if isWriteQuery p.1 then 1 else 0 }, s1)

/-- A backend whose every execution succeeds with an empty cursor. -/
def unitBackend : Backend Unit :=
  ⟨fun u _ _ => (.ok ⟨[]⟩, u), fun _ => 0⟩

/-- A backend whose every execution succeeds with the given rows. -/
def rowsBackend (rows : List Row) : Backend Unit :=
  ⟨fun u _ _ => (.ok ⟨rows⟩, u), fun _ => 0⟩

/-- A backend that throws `msg` on the SQL text `bad` and otherwise
succeeds with an empty cursor. -/
def failingSqlBackend (bad msg : String) : Backend Unit :=
  ⟨fun u q _ => if q = bad then (.error msg, u) else (.ok ⟨[]⟩, u), fun _ => 0⟩

theorem get?_append_len {α : Type} (l : List α) (x : α) (r : List α) :
    (l ++ x :: r).get? l.length = some x := by
  induction l with
  | nil => rfl
  | cons a t ih => simpa using ih

theorem get?_append_lt {α : Type} (l l2 : List α) (j : Nat) (hj : j < l.length) :
    (l ++ l2).get? j = l.get? j := by
  induction l generalizing j with
  | nil => exact absurd hj (Nat.not_lt_zero j)
  | cons a t ih =>
      cases j with
      | zero => rfl
      | succ n => simpa using ih n (Nat.lt_of_succ_lt_succ hj)

/-- Claim C4: a SQL string matching the transaction-control patterns
(exact BEGIN/COMMIT/ROLLBACK, a BEGIN DEFERRED/IMMEDIATE/EXCLUSIVE,
SAVEPOINT or RELEASE prefix, case-insensitively after trimming) makes
`executeStatement` return the empty statement result — no columns, no
rows, `affected_row_count = 0`, `last_insert_rowid = null`, and under v3
`rows_read = 0`, `rows_written = 0` and a measured duration — without
invoking the backend (the executor state, call log included, is returned
unchanged); any other SQL is forwarded to the backend with its bound
parameters. -/
theorem txn_interception {σ : Type} (B : Backend σ) (ver : Nat) (sql : String)
    (args : Option (List Wire)) (namedArgs : Option (List (String × Wire))) (s : St σ) :
    (isTxnControl sql = true →
      executeStatement B ver sql args namedArgs s =
        (.ok { cols := [], rows := [], affected_row_count := 0, last_insert_rowid := none,
               rows_read := if ver = 3 then some 0 else none,
               rows_written := if ver = 3 then some 0 else none,
               query_duration_ms := if ver = 3 then some 0 else none }, s)) ∧
    (isTxnControl sql = false →
      ((executeStatement B ver sql args namedArgs s).2).calls.get? s.calls.length =
        some (sql, match args with
          | some a => a
          | none => namedArgsToArray sql (namedArgs.getD []))) := by
  constructor
  · intro h
    simp [executeStatement, h, Nat.sub_self]
  · intro h
    unfold executeStatement
    simp only [h, Bool.false_eq_true, if_false, callExec]
    cases hE : B.exec s.db sql (match args with
      | some a => a
      | none => namedArgsToArray sql (namedArgs.getD [])) with
    | mk r db' =>
        cases r with
        | error m => simp [hE]
        | ok cur =>
            by_cases hI : startsWithS (toUpperCase (jsTrim sql)) "INSERT"
            · simp only [hE, hI, if_true, rowidProbe, callExec]
              cases hP : B.exec db' "SELECT last_insert_rowid() as id" [] with
              | mk r2 db2 =>
                  cases r2 with
                  | error m2 =>
                      simpa [hP, List.append_assoc] using get?_append_len s.calls _ _
                  | ok c2 =>
                      simpa [hP, List.append_assoc] using get?_append_len s.calls _ _
            · simp [hE, hI]

/-- Claim C4 witness: `BEGIN` under v3 yields the empty result with zero
v3 counters and no backend call, while an INSERT is forwarded. -/
theorem txn_interception_witness :
    executeStatement unitBackend 3 "BEGIN" none none ⟨(), []⟩ =
      (.ok { cols := [], rows := [], affected_row_count := 0, last_insert_rowid := none,
             rows_read := some 0, rows_written := some 0, query_duration_ms := some 0 },
       ⟨(), []⟩) ∧
    ((executeStatement unitBackend 2 "INSERT INTO t(v) VALUES(1)" (some []) none
        ⟨(), []⟩).2).calls.get? 0 =
      some ("INSERT INTO t(v) VALUES(1)", []) :=
  ⟨(txn_interception unitBackend 3 "BEGIN" none none ⟨(), []⟩).1 (by decide),
   (txn_interception unitBackend 2 "INSERT INTO t(v) VALUES(1)" (some []) none ⟨(), []⟩).2 (by decide)⟩

/-- Claim C2: a pipeline presenting a registered baton `b` succeeds with
the freshly generated baton `nb` (assumed fresh, as a 256-bit random
value is); afterwards `b` is gone from the registry — so a second
pipeline presenting `b` gets the 400 error "Invalid or expired baton"
with the registry unchanged — while `nb` maps to the stream `b` mapped
to, evolved by the pipeline's requests.  A pipeline presenting an
unregistered baton gets that 400 and leaves the registry untouched with
no stream created or modified. -/
theorem baton_rotation {σ : Type} (B B2 : Backend σ) (ver ver2 : Nat) (nb nb2 b : String)
    (reqs reqs2 : List StreamRequest) (streams : List (String × StreamState))
    (st0 : StreamState) (s s2 : St σ)
    (hnd : (streams.map Prod.fst).Nodup)
    (hb : msGet b streams = some st0)
    (hfresh : msGet nb streams = none) :
    (handlePipeline B ver nb (some b) (some reqs) streams s).1 =
      .ok nb (runRequests B ver reqs st0 s).1 ∧
    msGet b (handlePipeline B ver nb (some b) (some reqs) streams s).2.1 = none ∧
    msGet nb (handlePipeline B ver nb (some b) (some reqs) streams s).2.1 =
      some (runRequests B ver reqs st0 s).2.1 ∧
    (handlePipeline B2 ver2 nb2 (some b) (some reqs2)
        (handlePipeline B ver nb (some b) (some reqs) streams s).2.1 s2) =
      (.badRequest "Invalid or expired baton",
       (handlePipeline B ver nb (some b) (some reqs) streams s).2.1, s2) ∧
    (∀ (streams0 : List (String × StreamState)) (b0 : String),
      msGet b0 streams0 = none →
      handlePipeline B2 ver2 nb2 (some b0) (some reqs2) streams0 s2 =
        (.badRequest "Invalid or expired baton", streams0, s2)) := by
  have hne : b ≠ nb := by
    intro hEq
    rw [hEq, hfresh] at hb
    exact Option.noConfusion hb
  have hgen : ∀ (streams0 : List (String × StreamState)) (b0 : String),
      msGet b0 streams0 = none →
      handlePipeline B2 ver2 nb2 (some b0) (some reqs2) streams0 s2 =
        (.badRequest "Invalid or expired baton", streams0, s2) := by
    intro streams0 b0 h0
    simp [handlePipeline, h0]
  have hafter : msGet b (handlePipeline B ver nb (some b) (some reqs) streams s).2.1 = none := by
    simp only [handlePipeline, hb]
    rw [msGet_msSet_ne _ _ _ _ hne, msGet_msSet_ne _ _ _ _ hne]
    exact msGet_msDelete_self _ _ hnd
  refine ⟨by simp [handlePipeline, hb], hafter, ?_, ?_, hgen⟩
  · simp only [handlePipeline, hb]
    exact msGet_msSet_self _ _ _
  · exact hgen _ b hafter

/-- Claim C2 witness: with a one-entry registry, presenting its baton
rotates it to the fresh baton and invalidates the old one. -/
theorem baton_rotation_witness :
    (handlePipeline unitBackend 2 "n1" (some "b0") (some [])
        [("b0", ⟨[(1, "SELECT 1")]⟩)] ⟨(), []⟩).1 =
      .ok "n1" [] ∧
    msGet "b0" (handlePipeline unitBackend 2 "n1" (some "b0") (some [])
        [("b0", ⟨[(1, "SELECT 1")]⟩)] ⟨(), []⟩).2.1 = none ∧
    msGet "n1" (handlePipeline unitBackend 2 "n1" (some "b0") (some [])
        [("b0", ⟨[(1, "SELECT 1")]⟩)] ⟨(), []⟩).2.1 = some ⟨[(1, "SELECT 1")]⟩ := by
  have h := baton_rotation unitBackend unitBackend 2 2 "n1" "n2" "b0" [] []
    [("b0", ⟨[(1, "SELECT 1")]⟩)] ⟨[(1, "SELECT 1")]⟩ ⟨(), []⟩ ⟨(), []⟩
    (by decide) (by decide) (by decide)
  exact ⟨h.1, h.2.1, h.2.2.1⟩

/-- Claim C8: operating any pipeline on a stream other than B's — in
particular one performing `store_sql` or `close_sql` on another stream —
leaves the registry entry of baton `b` (stream B) untouched, so resolving
any `sql_id` on stream B afterwards yields exactly the outcome it yielded
before. -/
theorem stored_sql_scoping {σ : Type} (B : Backend σ) (ver : Nat) (nb : String)
    (presented : Option String) (reqs : Option (List StreamRequest))
    (streams : List (String × StreamState)) (b : String) (Bst : StreamState) (s : St σ)
    (hb : msGet b streams = some Bst)
    (hpres : presented ≠ some b)
    (hfresh : nb ≠ b) :
    msGet b (handlePipeline B ver nb presented reqs streams s).2.1 = some Bst ∧
    (∀ stmt : Stmt,
      Option.map (resolveSql stmt)
        (msGet b (handlePipeline B ver nb presented reqs streams s).2.1) =
      Option.map (resolveSql stmt) (msGet b streams)) := by
  have hne : b ≠ nb := fun hEq => hfresh hEq.symm
  have hmain : msGet b (handlePipeline B ver nb presented reqs streams s).2.1 = some Bst := by
    cases reqs with
    | none => simpa [handlePipeline] using hb
    | some rs =>
        cases presented with
        | none =>
            simp only [handlePipeline]
            rw [msGet_msSet_ne _ _ _ _ hne, msGet_msSet_ne _ _ _ _ hne]
            exact hb
        | some a =>
            have ha : a ≠ b := fun hEq => hpres (by rw [hEq])
            cases hga : msGet a streams with
            | none => simpa [handlePipeline, hga] using hb
            | some stA =>
                simp only [handlePipeline, hga]
                rw [msGet_msSet_ne _ _ _ _ hne, msGet_msSet_ne _ _ _ _ hne,
                    msGet_msDelete_ne _ _ _ (Ne.symm ha)]
                exact hb
  exact ⟨hmain, fun stmt => by rw [hmain, hb]⟩

/-- Claim C8 witness: a pipeline that stores SQL id 7 on stream A does
not change what id 7 resolves to on stream B. -/
theorem stored_sql_scoping_witness :
    msGet "bB" (handlePipeline unitBackend 2 "n1" (some "bA")
        (some [.store_sql 7 "SELECT 2"]) [("bA", ⟨[]⟩), ("bB", ⟨[]⟩)] ⟨(), []⟩).2.1 =
      some ⟨[]⟩ ∧
    Option.map (resolveSql ⟨none, some 7, none, none⟩)
        (msGet "bB" (handlePipeline unitBackend 2 "n1" (some "bA")
          (some [.store_sql 7 "SELECT 2"]) [("bA", ⟨[]⟩), ("bB", ⟨[]⟩)] ⟨(), []⟩).2.1) =
      Option.map (resolveSql ⟨none, some 7, none, none⟩)
        (msGet "bB" [("bA", (⟨[]⟩ : StreamState)), ("bB", ⟨[]⟩)]) := by
  have h := stored_sql_scoping unitBackend 2 "n1" (some "bA")
    (some [.store_sql 7 "SELECT 2"]) [("bA", ⟨[]⟩), ("bB", ⟨[]⟩)] "bB" ⟨[]⟩ ⟨(), []⟩
    (by decide) (by decide) (by decide)
  exact ⟨h.1, h.2 _⟩

theorem runRequests_len {σ : Type} (B : Backend σ) (ver : Nat)
    (reqs : List StreamRequest) : ∀ (st : StreamState) (s : St σ),
    (runRequests B ver reqs st s).1.length = reqs.length := by
  induction reqs with
  | nil => intro st s; rfl
  | cons r rs ih => intro st s; simp [runRequests, ih]

theorem runRequests_get {σ : Type} (B : Backend σ) (ver : Nat)
    (reqs : List StreamRequest) : ∀ (i : Nat) (h : i < reqs.length)
    (st : StreamState) (s : St σ),
    (runRequests B ver reqs st s).1.get? i =
      some (toStreamRes (handleStreamRequest B ver (reqs.get ⟨i, h⟩)
        (runRequests B ver (reqs.take i) st s).2.1
        (runRequests B ver (reqs.take i) st s).2.2).1) := by
  induction reqs with
  | nil => intro i h; exact absurd h (Nat.not_lt_zero i)
  | cons r rs ih =>
      intro i h st s
      cases i with
      | zero => rfl
      | succ n =>
          have h' : n < rs.length := Nat.lt_of_succ_lt_succ h
          simpa [runRequests, List.take_succ_cons]
            using ih n h' (handleStreamRequest B ver r st s).2.1
              (handleStreamRequest B ver r st s).2.2

/-- Claim C3: a valid pipeline (requests array present, baton null or
registered) answers 200 with exactly one result slot per request, in
order: slot `i` is the trapped outcome of request `i` run from the state
its predecessors left (an error fills its slot as
`\x7btype:'error', error:\x7bmessage\x7d\x7d` and later requests still run), and the
response is the 200 `ok` payload no matter how many slots are errors. -/
theorem pipeline_ordering {σ : Type} (B : Backend σ) (ver : Nat) (nb : String)
    (reqs : List StreamRequest) (streams : List (String × StreamState))
    (st : StreamState) (s : St σ) :
    (runRequests B ver reqs st s).1.length = reqs.length ∧
    (∀ (i : Nat) (h : i < reqs.length),
      (runRequests B ver reqs st s).1.get? i =
        some (toStreamRes (handleStreamRequest B ver (reqs.get ⟨i, h⟩)
          (runRequests B ver (reqs.take i) st s).2.1
          (runRequests B ver (reqs.take i) st s).2.2).1)) ∧
    (handlePipeline B ver nb none (some reqs) streams s).1 =
      .ok nb (runRequests B ver reqs ⟨[]⟩ s).1 ∧
    (∀ (b : String) (st0 : StreamState), msGet b streams = some st0 →
      (handlePipeline B ver nb (some b) (some reqs) streams s).1 =
        .ok nb (runRequests B ver reqs st0 s).1) := by
  refine ⟨runRequests_len B ver reqs st s, fun i h => runRequests_get B ver reqs i h st s,
    by simp [handlePipeline], fun b st0 hb => by simp [handlePipeline, hb]⟩

/-- The two-request pipeline of the C3 witness: the first request throws
(unknown type), the second still executes. -/
def reqsW : List StreamRequest := [.unknown "bogus", .get_autocommit]

/-- Claim C3 witness: on a concrete pipeline whose first request fails,
the response still has one slot per request, slot 1 is the outcome of
request 1 run after request 0, and a registered baton yields a 200. -/
theorem pipeline_ordering_witness :
    (runRequests unitBackend 2 reqsW ⟨[]⟩ ⟨(), []⟩).1.length = 2 ∧
    (runRequests unitBackend 2 reqsW ⟨[]⟩ ⟨(), []⟩).1.get? 1 =
      some (toStreamRes (handleStreamRequest unitBackend 2 (reqsW.get ⟨1, by decide⟩)
        (runRequests unitBackend 2 (reqsW.take 1) ⟨[]⟩ ⟨(), []⟩).2.1
        (runRequests unitBackend 2 (reqsW.take 1) ⟨[]⟩ ⟨(), []⟩).2.2).1) ∧
    (handlePipeline unitBackend 2 "n1" (some "b0") (some reqsW)
        [("b0", ⟨[]⟩)] ⟨(), []⟩).1 =
      .ok "n1" (runRequests unitBackend 2 reqsW ⟨[]⟩ ⟨(), []⟩).1 := by
  have h := pipeline_ordering unitBackend 2 "n1" reqsW [("b0", ⟨[]⟩)] ⟨[]⟩ ⟨(), []⟩
  exact ⟨h.1, h.2.1 1 (by decide), h.2.2.2 "b0" ⟨[]⟩ (by decide)⟩

theorem runBatchSteps_len {σ : Type} (B : Backend σ) (ver : Nat) (st : StreamState) :
    ∀ (steps : List BatchStep) (accR : List (Option StmtResult))
      (accE : List (Option String)) (s : St σ),
    ((runBatchSteps B ver st steps accR accE s).1.1).length = accR.length + steps.length ∧
    ((runBatchSteps B ver st steps accR accE s).1.2).length = accE.length + steps.length := by
  intro steps
  induction steps with
  | nil => intro accR accE s; simp [runBatchSteps]
  | cons step rest ih =>
      intro accR accE s
      have h := ih (accR ++ [(runBatchStep B ver st step accR accE s).1.1])
        (accE ++ [(runBatchStep B ver st step accR accE s).1.2])
        (runBatchStep B ver st step accR accE s).2
      constructor
      · rw [runBatchSteps, h.1]; simp; omega
      · rw [runBatchSteps, h.2]; simp; omega

theorem runBatchSteps_get_acc {σ : Type} (B : Backend σ) (ver : Nat) (st : StreamState) :
    ∀ (steps : List BatchStep) (accR : List (Option StmtResult))
      (accE : List (Option String)) (s : St σ) (j : Nat),
    (j < accR.length →
      (runBatchSteps B ver st steps accR accE s).1.1.get? j = accR.get? j) ∧
    (j < accE.length →
      (runBatchSteps B ver st steps accR accE s).1.2.get? j = accE.get? j) := by
  intro steps
  induction steps with
  | nil => intro accR accE s j; exact ⟨fun _ => rfl, fun _ => rfl⟩
  | cons step rest ih =>
      intro accR accE s j
      have h := ih (accR ++ [(runBatchStep B ver st step accR accE s).1.1])
        (accE ++ [(runBatchStep B ver st step accR accE s).1.2])
        (runBatchStep B ver st step accR accE s).2 j
      constructor
      · intro hj
        rw [runBatchSteps, h.1 (by simp; omega), get?_append_lt _ _ _ hj]
      · intro hj
        rw [runBatchSteps, h.2 (by simp; omega), get?_append_lt _ _ _ hj]

theorem runBatchSteps_get {σ : Type} (B : Backend σ) (ver : Nat) (st : StreamState) :
    ∀ (steps : List BatchStep) (accR : List (Option StmtResult))
      (accE : List (Option String)) (s : St σ) (i : Nat) (h : i < steps.length),
    (runBatchSteps B ver st steps accR accE s).1.1.get? (accR.length + i) =
      some (runBatchStep B ver st (steps.get ⟨i, h⟩)
        (runBatchSteps B ver st (steps.take i) accR accE s).1.1
        (runBatchSteps B ver st (steps.take i) accR accE s).1.2
        (runBatchSteps B ver st (steps.take i) accR accE s).2).1.1 ∧
    (runBatchSteps B ver st steps accR accE s).1.2.get? (accE.length + i) =
      some (runBatchStep B ver st (steps.get ⟨i, h⟩)
        (runBatchSteps B ver st (steps.take i) accR accE s).1.1
        (runBatchSteps B ver st (steps.take i) accR accE s).1.2
        (runBatchSteps B ver st (steps.take i) accR accE s).2).1.2 := by
  intro steps
  induction steps with
  | nil => intro accR accE s i h; exact absurd h (Nat.not_lt_zero i)
  | cons step rest ih =>
      intro accR accE s i h
      cases i with
      | zero =>
          have hR := (runBatchSteps_get_acc B ver st rest
            (accR ++ [(runBatchStep B ver st step accR accE s).1.1])
            (accE ++ [(runBatchStep B ver st step accR accE s).1.2])
            (runBatchStep B ver st step accR accE s).2 accR.length).1
          have hE := (runBatchSteps_get_acc B ver st rest
            (accR ++ [(runBatchStep B ver st step accR accE s).1.1])
            (accE ++ [(runBatchStep B ver st step accR accE s).1.2])
            (runBatchStep B ver st step accR accE s).2 accE.length).2
          constructor
          · rw [Nat.add_zero, runBatchSteps, hR (by simp)]
            exact get?_append_len accR _ []
          · rw [Nat.add_zero, runBatchSteps, hE (by simp)]
            exact get?_append_len accE _ []
      | succ n =>
          have h' : n < rest.length := Nat.lt_of_succ_lt_succ h
          have := ih (accR ++ [(runBatchStep B ver st step accR accE s).1.1])
            (accE ++ [(runBatchStep B ver st step accR accE s).1.2])
            (runBatchStep B ver st step accR accE s).2 n h'
          constructor
          · rw [runBatchSteps, show accR.length + (n + 1) =
              (accR ++ [(runBatchStep B ver st step accR accE s).1.1]).length + n by
                simp; omega]
            simpa [List.take_succ_cons, runBatchSteps] using this.1
          · rw [runBatchSteps, show accE.length + (n + 1) =
              (accE ++ [(runBatchStep B ver st step accR accE s).1.2]).length + n by
                simp; omega]
            simpa [List.take_succ_cons, runBatchSteps] using this.2

/-- Claim C5 counterexample: in a batch whose only step is guarded by
`\x7btype:'error', step:3\x7d`, no step 3 ever recorded an error, yet the
condition evaluates to true (`errors[3]` is `undefined`, and
`undefined !== null`), so the statement executes instead of being
skipped with null entries. -/
theorem batch_condition_cex :
    evaluateCondition (.mk "error" (some 3)) [] [] = true ∧
    (runBatchSteps unitBackend 2 ⟨[]⟩
        [⟨some (.mk "error" (some 3)), some ⟨some "SELECT 1", none, none, none⟩⟩]
        [] [] ⟨(), []⟩).1.1 =
      [some ⟨[], [], 0, none, none, none, none⟩] ∧
    ¬ ((runBatchSteps unitBackend 2 ⟨[]⟩
        [⟨some (.mk "error" (some 3)), some ⟨some "SELECT 1", none, none, none⟩⟩]
        [] [] ⟨(), []⟩).1.1 = [none]) := by
  refine ⟨rfl, rfl, by decide⟩

/-- Claim C5 (amended): batch steps run in order, each contributing one
entry to both parallel arrays; a step whose present condition evaluates
false against the accumulated entries is skipped — null in both arrays,
nothing executed; an unguarded or true-guarded step runs, recording its
result (null error) on success or its message (null result) on failure;
`ok\x7bstep:i\x7d` holds iff entry i is recorded and null, `error\x7bstep:i\x7d`
holds iff entry i is a recorded message or i is not yet recorded (the
out-of-range case diverges from the claim), and `not` negates its nested
condition. -/
theorem batch_condition_amended {σ : Type} (B : Backend σ) (ver : Nat) (st : StreamState) :
    (∀ (steps : List BatchStep) (s : St σ),
      ((runBatchSteps B ver st steps [] [] s).1.1).length = steps.length ∧
      ((runBatchSteps B ver st steps [] [] s).1.2).length = steps.length) ∧
    (∀ (steps : List BatchStep) (s : St σ) (i : Nat) (h : i < steps.length),
      (runBatchSteps B ver st steps [] [] s).1.1.get? i =
        some (runBatchStep B ver st (steps.get ⟨i, h⟩)
          (runBatchSteps B ver st (steps.take i) [] [] s).1.1
          (runBatchSteps B ver st (steps.take i) [] [] s).1.2
          (runBatchSteps B ver st (steps.take i) [] [] s).2).1.1 ∧
      (runBatchSteps B ver st steps [] [] s).1.2.get? i =
        some (runBatchStep B ver st (steps.get ⟨i, h⟩)
          (runBatchSteps B ver st (steps.take i) [] [] s).1.1
          (runBatchSteps B ver st (steps.take i) [] [] s).1.2
          (runBatchSteps B ver st (steps.take i) [] [] s).2).1.2) ∧
    (∀ (step : BatchStep) (c : BatchCond) (accR : List (Option StmtResult))
       (accE : List (Option String)) (s : St σ),
      step.condition = some c → evaluateCondition c accR accE = false →
      runBatchStep B ver st step accR accE s = ((none, none), s)) ∧
    (∀ (step : BatchStep) (c : BatchCond) (accR : List (Option StmtResult))
       (accE : List (Option String)) (s : St σ),
      step.condition = some c → evaluateCondition c accR accE = true →
      runBatchStep B ver st step accR accE s = runBatchTry B ver st step.stmt s) ∧
    (∀ (step : BatchStep) (accR : List (Option StmtResult))
       (accE : List (Option String)) (s : St σ),
      step.condition = none →
      runBatchStep B ver st step accR accE s = runBatchTry B ver st step.stmt s) ∧
    (∀ (stmt : Stmt) (q : String) (r : StmtResult) (s s1 : St σ),
      resolveSql stmt st = .ok q →
      executeStatement B ver q (some (parseArgs stmt.args))
        (parseNamedArgs stmt.named_args) s = (.ok r, s1) →
      runBatchTry B ver st (some stmt) s = ((some r, none), s1)) ∧
    (∀ (stmt : Stmt) (q m : String) (s s1 : St σ),
      resolveSql stmt st = .ok q → m ≠ "" →
      executeStatement B ver q (some (parseArgs stmt.args))
        (parseNamedArgs stmt.named_args) s = (.error m, s1) →
      runBatchTry B ver st (some stmt) s = ((none, some m), s1)) ∧
    (∀ (i : Nat) (R : List (Option StmtResult)) (E : List (Option String)),
      (evaluateCondition (.mk "ok" (some i)) R E = true ↔ E.get? i = some none) ∧
      (evaluateCondition (.mk "error" (some i)) R E = true ↔ ¬ (E.get? i = some none))) ∧
    (∀ (c : BatchCond) (stp : Option Nat) (R : List (Option StmtResult))
       (E : List (Option String)),
      evaluateCondition (.mkc "not" stp c) R E = !(evaluateCondition c R E)) := by
  refine ⟨fun steps s => by simpa using runBatchSteps_len B ver st steps [] [] s,
    fun steps s i h => by simpa using runBatchSteps_get B ver st steps [] [] s i h,
    ?_, ?_, ?_, ?_, ?_, ?_, ?_⟩
  · intro step c accR accE s hc he; simp [runBatchStep, hc, he]
  · intro step c accR accE s hc he; simp [runBatchStep, hc, he]
  · intro step accR accE s hc; simp [runBatchStep, hc]
  · intro stmt q r s s1 hres hexe; simp [runBatchTry, hres, hexe]
  · intro stmt q m s s1 hres hm hexe; simp [runBatchTry, hres, hexe, hm]
  · intro i R E
    constructor
    · simp [evaluateCondition, evalStepCond]
    · simp [evaluateCondition, evalStepCond]
  · intro c stp R E
    simp [evaluateCondition]

/-- The batch of spec scenario 6: step 0 fails, step 1 is guarded by
`ok\x7bstep:0\x7d`, step 2 by `error\x7bstep:0\x7d`. -/
def stepsW : List BatchStep :=
  [⟨none, some ⟨some "SELECT notacolumn", none, none, none⟩⟩,
   ⟨some (.mk "ok" (some 0)), some ⟨some "SELECT 1", none, none, none⟩⟩,
   ⟨some (.mk "error" (some 0)), some ⟨some "SELECT 2", none, none, none⟩⟩]

/-- A backend on which `SELECT notacolumn` throws. -/
def failB : Backend Unit := failingSqlBackend "SELECT notacolumn" "no such column: notacolumn"

/-- Claim C5 witness: on scenario 6, both arrays have three entries,
step 1 (guarded `ok\x7bstep:0\x7d` after step 0 failed) is skipped with null
entries, and step 2 (guarded `error\x7bstep:0\x7d`) executes and records a
result with a null error. -/
theorem batch_condition_amended_witness :
    ((runBatchSteps failB 2 ⟨[]⟩ stepsW [] [] ⟨(), []⟩).1.1).length = 3 ∧
    (runBatchSteps failB 2 ⟨[]⟩ stepsW [] [] ⟨(), []⟩).1.1.get? 1 = some none ∧
    (runBatchSteps failB 2 ⟨[]⟩ stepsW [] [] ⟨(), []⟩).1.2.get? 1 = some none ∧
    (runBatchSteps failB 2 ⟨[]⟩ stepsW [] [] ⟨(), []⟩).1.1.get? 2 =
      some (some ⟨[], [], 0, none, none, none, none⟩) ∧
    (runBatchSteps failB 2 ⟨[]⟩ stepsW [] [] ⟨(), []⟩).1.2.get? 2 = some none := by
  have h := batch_condition_amended failB 2 ⟨[]⟩
  exact ⟨(h.1 stepsW ⟨(), []⟩).1,
    (h.2.1 stepsW ⟨(), []⟩ 1 (by decide)).1,
    (h.2.1 stepsW ⟨(), []⟩ 1 (by decide)).2,
    (h.2.1 stepsW ⟨(), []⟩ 2 (by decide)).1,
    (h.2.1 stepsW ⟨(), []⟩ 2 (by decide)).2⟩

/-- Claim C6 (code bug, evaluated at the failing input): executing
`SELECT ?` with no positional args and the non-empty named mapping
`\x7ba: \x7btype:'integer', value:'42'\x7d\x7d` invokes the backend with ZERO bound
parameters — `parseArgs` always yields an array, a JS array is truthy,
so `args || this.namedArgsToArray(...)` never reads the named args.  The
second conjunct shows what `namedArgsToArray` would have forwarded (the
named values in iteration order) had it been reached. -/
theorem named_args_dropped :
    ((handleExecute unitBackend 2
        ⟨some "SELECT ?", none, none, some (.record [("a", .whrana "integer" (.wstr "42"))])⟩
        ⟨[]⟩ ⟨(), []⟩).2).calls = [("SELECT ?", [])] ∧
    namedArgsToArray "SELECT ?"
        ((parseNamedArgs (some (.record [("a", .whrana "integer" (.wstr "42"))]))).getD []) =
      [.whrana "integer" (.wstr "42")] :=
  ⟨rfl, rfl⟩

/-- Claim C7 (code bug, evaluated at the failing input): a pipeline whose
only request is `close` does not destroy the stream — the response
carries the freshly rotated, non-null baton, and the stream remains
registered under it (only the idle timer would remove it). -/
theorem close_not_destroying :
    (handlePipeline unitBackend 2 "b1" none (some [.close]) [] ⟨(), []⟩).1 =
      .ok "b1" [.ok .close] ∧
    msGet "b1" (handlePipeline unitBackend 2 "b1" none (some [.close]) [] ⟨(), []⟩).2.1 =
      some ⟨[]⟩ :=
  ⟨rfl, rfl⟩

/-- Claim C9 counterexample: `GET /health` answers 200 "OK" but
`GET /health/` falls through every exact path comparison to the 404 JSON
fallback — the trailing-slash variant is neither dispatched to the same
handler nor given the same response. -/
theorem trailing_slash_cex :
    ¬ (route "GET" "/health/" = route "GET" "/health") ∧
    route "GET" "/health" = Handler.health ∧
    route "GET" "/health/" = Handler.fallback404 ∧
    simpleResponse Handler.health = some (200, "OK") ∧
    simpleResponse Handler.fallback404 = some (404, "\x7b\"error\":\"Not found\"\x7d") := by
  decide

/-- Claim C9 (amended): the dispatcher compares paths for exact equality,
so each route is reached only on its exact path and every trailing-slash
variant (including `//` for the root) falls through to the 404 JSON
fallback instead of the route's handler. -/
theorem trailing_slash_amended :
    route "GET" "/v3-protobuf" = Handler.protobufNotFound ∧
    route "GET" "/v3" = Handler.probeV3 ∧
    route "GET" "/v2" = Handler.probeV2 ∧
    route "POST" "/v3/pipeline" = Handler.pipelineV3 ∧
    route "POST" "/v2/pipeline" = Handler.pipelineV2 ∧
    route "POST" "/" = Handler.v1batch ∧
    route "POST" "/v1" = Handler.v1batch ∧
    route "GET" "/health" = Handler.health ∧
    route "GET" "/version" = Handler.version ∧
    route "GET" "/v3-protobuf/" = Handler.fallback404 ∧
    route "GET" "/v3/" = Handler.fallback404 ∧
    route "GET" "/v2/" = Handler.fallback404 ∧
    route "POST" "/v3/pipeline/" = Handler.fallback404 ∧
    route "POST" "/v2/pipeline/" = Handler.fallback404 ∧
    route "POST" "//" = Handler.fallback404 ∧
    route "POST" "/v1/" = Handler.fallback404 ∧
    route "GET" "/health/" = Handler.fallback404 ∧
    route "GET" "/version/" = Handler.fallback404 := by
  decide

/-- Claim C10: for a statement whose backend cursor yields the given
rows (and which is not intercepted as transaction control), a cursor with
zero rows gives an empty column list in both the v1 and the v2/v3
response — whatever the SQL text selects — while a non-empty cursor gives
exactly the keys of its first row, in order, as the columns; and every
returned row array has exactly the column-list's width. -/
theorem columns_from_first_row (rows : List Row) (sql : String) (ver : Nat)
    (args : Option (List Wire)) (named : Option (List (String × Wire)))
    (s : St Unit) (res : V1Res) (r2 : StmtResult)
    (h1 : (executeQuery (rowsBackend rows) (.qstr sql) s).1 = .ok res)
    (h2 : (executeStatement (rowsBackend rows) ver sql args named s).1 = .ok r2)
    (hnt : isTxnControl sql = false) :
    (rows = [] → res.columns = [] ∧ r2.cols = []) ∧
    (∀ (r : Row) (rest : List Row), rows = r :: rest →
      res.columns = r.map Prod.fst ∧ r2.cols = r.map Prod.fst) ∧
    (∀ row ∈ res.rows, row.length = res.columns.length) ∧
    (∀ row ∈ r2.rows, row.length = r2.cols.length) := by
  simp only [executeQuery, callExec, rowsBackend, Except.ok.injEq] at h1
  simp only [executeStatement, hnt, Bool.false_eq_true, if_false, callExec, rowsBackend,
    Except.ok.injEq] at h2
  subst h1
  subst h2
  refine ⟨?_, ?_, ?_, ?_⟩
  · rintro rfl; exact ⟨rfl, rfl⟩
  · rintro r rest rfl; exact ⟨rfl, rfl⟩
  · intro row hm
    simp only [List.mem_map] at hm
    obtain ⟨r0, _, hr0⟩ := hm
    rw [← hr0]
    simp
  · intro row hm
    simp only [List.mem_map] at hm
    obtain ⟨r0, _, hr0⟩ := hm
    rw [← hr0]
    simp

/-- A two-row cursor for the C10 witness. -/
def rowsW : List Row :=
  [[("x", Native.nnum (JNum.jint 1))], [("x", Native.nnum (JNum.jint 2))]]

/-- The v1 result the C10 witness observes. -/
def resW : V1Res := ⟨["x"], [[.wnum (.jint 1)], [.wnum (.jint 2)]], 2, 0⟩

/-- The v2 result the C10 witness observes. -/
def r2W : StmtResult :=
  ⟨["x"], [[.whrana "integer" (.wstr "1")], [.whrana "integer" (.wstr "2")]],
   0, none, none, none, none⟩

/-- Claim C10 witness: on a concrete two-row cursor, both protocol
versions report column list `["x"]` (the keys of the first row) and each
returned row has width 1. -/
theorem columns_from_first_row_witness :
    resW.columns = ["x"] ∧ r2W.cols = ["x"] ∧
    (∀ row ∈ resW.rows, row.length = resW.columns.length) ∧
    (∀ row ∈ r2W.rows, row.length = r2W.cols.length) := by
  have h := columns_from_first_row rowsW "SELECT x FROM t" 2 (some []) none
    ⟨(), []⟩ resW r2W rfl rfl (by decide)
  exact ⟨(h.2.1 [("x", Native.nnum (JNum.jint 1))] [[("x", Native.nnum (JNum.jint 2))]] rfl).1,
    (h.2.1 [("x", Native.nnum (JNum.jint 1))] [[("x", Native.nnum (JNum.jint 2))]] rfl).2,
    h.2.2.1, h.2.2.2⟩

end LibSQL
